import Mathlib

/-!
Verification of the `pesc` Home Assistant custom integration
(`custom_components/pesc`): a shallow embedding in Lean 4 of the data model
and the operations of `pesc_api.py`, `pesc_client.py`, `sensor.py` and
`__init__.py`, together with theorems about them.  Definitions come first,
all theorems follow.

Conventions of the embedding:
* Python `int` is modelled as `Int`, Python `float` values that are only
  stored (never computed with) as `Rat`.
* Python strings are modelled as `String`; Python string comparison
  (lexicographic by Unicode code point) is modelled by the executable
  comparator `charListLt` below, because it is used by `sorted(...)`.
* Fallible code returns an explicit result type with a constructor per
  exception class; HTTP traffic is abstracted by oracle arguments (one value
  per request the code can make), and functions additionally return how many
  requests / which update attempts they made where a claim talks about that.
-/

namespace Pesc


/-! ### Python string comparison

`sorted` in `PescApi.meters` compares its f-string keys as Python strings,
i.e. lexicographically by Unicode code point; `charListLt` is that order on
the underlying character lists (`pyStrLe_total` and `pyStrLe_trans` below
show `pyStrLe` is a total preorder, so the stable `List.insertionSort` used
in `PescApi.meters` computes what Python's stable `sorted` computes). -/

def charListLt : List Char → List Char → Bool
  | [], [] => false
  | [], _ :: _ => true
  | _ :: _, [] => false
  | a :: as, b :: bs =>
    if a.val.toNat < b.val.toNat then true
    else if b.val.toNat < a.val.toNat then false
    else charListLt as bs

/-- Python `s < t` on strings. -/
def pyStrLt (s t : String) : Bool := charListLt s.data t.data

/-- Python `s <= t` on strings (total order, `¬ t < s`). -/
def pyStrLe (s t : String) : Bool := !(charListLt t.data s.data)

/-! ### Data model (`pesc_api.py`)

`Account` keeps the fields of `pesc_api.Account` that the verified code
reads (`id`, `type`); `MeterInd` keeps `account`, the owning meter's
registration id (`meter.id` in the source), `scale_id`, `name`
(`scaleName`) and `value` (`previousReading`). -/

structure Account where
  id : Int
  type : Option String
  deriving Repr, DecidableEq

structure MeterInd where
  account : Account
  meterId : String
  scale_id : Int
  name : String
  value : Int
  deriving Repr, DecidableEq

/-- `MeterInd.id`: `f"{self.meter.id}_{self.scale_id}"`. -/
def MeterInd.id (m : MeterInd) : String := m.meterId ++ "_" ++ toString m.scale_id

/-- `MeterInd.auto`: `self.account.type == "auto"`. -/
def MeterInd.auto (m : MeterInd) : Bool := m.account.type == some "auto"

/-- Python values of type `float | str` (`TariffRate.value`); the verified
code only stores them, so a float is kept as an exact `Rat`. -/
inductive PyVal
  | num (q : Rat)
  | str (s : String)
  deriving Repr, DecidableEq

structure TariffRate where
  value : PyVal
  name : String
  detail : String
  description : String
  deriving Repr, DecidableEq

structure Tariff where
  name : String
  kind : Option String
  rates : List TariffRate
  deriving Repr, DecidableEq

/-- Result of a call to `Tariff.rate`.  `typeError` is the Python `TypeError`
raised by `"/".join([rate for rate in self.rates])` when the final line of
the method is reached: `join` requires strings but receives `TariffRate`
objects. -/
inductive RateResult
  | none
  | found (r : TariffRate)
  | typeError
  deriving Repr, DecidableEq

/-- The service names special-cased at the top of `Tariff.rate`. -/
def waterServiceNames : List String :=
  ["Холодное водоснабжение", "Горячее водоснабжение", "ГВС",
   "Водоотведение ХВС", "Водоотведение ГВС"]

/-- `Tariff.rate` (`pesc_api.py` lines 153–189). -/
def Tariff.rate (t : Tariff) (meter : MeterInd) : RateResult :=
  match t.rates with
  | [] => RateResult.none
  | r0 :: _ =>
    if t.name ∈ waterServiceNames then RateResult.found r0
    else
      match t.rates.find? (fun r => r.name == meter.name) with
      | some r => RateResult.found r
      | none =>
        -- after the `for` loop; the `if len(self.rates) == 1` line and the
        -- final `"/".join(...)` line are reached on fall-through
        let fallThrough : RateResult :=
          if t.rates.length = 1 then RateResult.found r0 else RateResult.typeError
        if t.name = "Электроэнергия" then
          if t.kind = some "Двухтарифный" ∧ t.rates.length = 2 then
            if meter.scale_id = 2 then RateResult.found r0
            else if meter.scale_id = 3 then
              RateResult.found ((t.rates.drop 1).headD r0)
            else fallThrough
          else if t.kind = some "Однотарифный" ∧ t.rates.length = 2 then
            RateResult.found r0
          else fallThrough
        else fallThrough

/-! ### The `PescApi.meters` property

```python
meters: dict[str, MeterInd] = {}
for meter in sorted(self._meters, key=lambda x: f"{x.account.id}_{x.id}"):
    meters[meter.id] = meter
return list(meters.values())
```

`sorted` is a stable sort by the *string* key; it is modelled by
`List.insertionSort`, which is likewise stable for the total preorder
`keyLe`.  The Python dict is modelled by an association list with in-place
update (`dictInsert`): a later write to an existing key replaces the value
but keeps the entry's position, and `list(meters.values())` is the
`Prod.snd` projection in entry order. -/

/-- `f"{x.account.id}_{x.id}"`. -/
def sortKey (m : MeterInd) : String := toString m.account.id ++ "_" ++ m.id

def keyLe (a b : MeterInd) : Prop := pyStrLe (sortKey a) (sortKey b) = true

instance : DecidableRel keyLe := fun a b =>
  inferInstanceAs (Decidable (pyStrLe (sortKey a) (sortKey b) = true))

/-- `meters[meter.id] = meter` on a Python dict kept as an association
list: replace in place if the key exists, else append. -/
def dictInsert (m : MeterInd) : List (String × MeterInd) → List (String × MeterInd)
  | [] => [(m.id, m)]
  | (k, v) :: rest =>
    if k = m.id then (k, m) :: rest else (k, v) :: dictInsert m rest

/-- The `PescApi.meters` property, as a function of the loaded indication
list `self._meters`. -/
def PescApi.meters (stored : List MeterInd) : List MeterInd :=
  ((List.insertionSort keyLe stored).foldl (fun d m => dictInsert m d) []).map
    Prod.snd

/-! ### `PescApi.async_update_value` (payload padding) -/

structure UpdateValuePayload where
  scaleId : Int
  value : Int
  deriving Repr, DecidableEq

/-- One iteration of the `for mtr in meters` padding loop: if no entry of
the (current) payload list has the indication's scale id, append
`UpdateValuePayload(scaleId=mtr.scale_id, value=mtr.value)`. -/
def padStep (vals : List UpdateValuePayload) (mtr : MeterInd) :
    List UpdateValuePayload :=
  if vals.any (fun val => mtr.scale_id == val.scaleId) then vals
  else vals ++ [⟨mtr.scale_id, mtr.value⟩]

/-- `PescApi.async_update_value` (`pesc_api.py` lines 212–228) as a function
of the loaded indications `self._meters`; the list it returns is the same
(mutated) list that is passed to `client.async_update_value`. -/
def PescApi.async_update_value (stored : List MeterInd) (meter : MeterInd)
    (values : List UpdateValuePayload) : List UpdateValuePayload :=
  let meters :=
    (PescApi.meters stored).filter (fun mtr => mtr.meterId == meter.meterId)
  if values.length ≠ meters.length then meters.foldl padStep values
  else values

/-- The padding entry contributed by one indication, as a function of the
*initial* payload list. -/
def padEntry (vals : List UpdateValuePayload) (mtr : MeterInd) :
    Option UpdateValuePayload :=
  if vals.any (fun val => mtr.scale_id == val.scaleId) then none
  else some ⟨mtr.scale_id, mtr.value⟩

/-! ### `pesc_client.py`

HTTP traffic is abstracted: the status and parsed JSON body of the one POST
a method can make are oracle arguments, and each function also returns the
number of HTTP requests it sent. -/

/-- A Python auth dict (`UserAuth`); `"verified" in auth` is key
membership. -/
abbrev UserAuth := List (String × String)

def hasAuthKey (k : String) (auth : UserAuth) : Bool :=
  auth.any (fun p => p.1 == k)

/-- `PescClient.can_reauth`: `AUTH_VERIFIED in auth`. -/
def PescClient.can_reauth (auth : UserAuth) : Bool := hasAuthKey "verified" auth

inductive ReauthResult
  | clientAuthError (message : String)
  | clientError (code : Int) (message : String)
  | ok (auth : UserAuth)

/-- `PescClient.async_users_reauth` (`pesc_client.py` lines 328–360):
`status`/`body` are the oracle for the POST to `/v8/users/auth`; the second
component counts the HTTP requests sent. -/
def PescClient.async_users_reauth (auth : UserAuth) (status : Int)
    (body : UserAuth) : ReauthResult × Nat :=
  if ¬ PescClient.can_reauth auth then
    (ReauthResult.clientAuthError "Отсутствует токен verified", 0)
  else if status ≠ 200 then
    (ReauthResult.clientError status
      "Неожиданный статус ответа повторной авторизации", 1)
  else (ReauthResult.ok body, 1)

/-- A parsed JSON response body for `async_users_auth`: `message` is
`body.get("message")` (`none` when absent), the rest is the transaction
payload the method returns on success. -/
structure AuthRespBody where
  message : Option String
  transactionId : String
  types : List String
  deriving Repr, DecidableEq

/-- The `json` passed to the raised `ClientError`: either the synthesized
`{"code": status, "message": ...}` or the whole response body when the body
has a truthy `"message"`. -/
inductive ErrJson
  | synthesized (code : Int) (message : String)
  | fromBody (body : AuthRespBody)
  deriving Repr, DecidableEq

inductive UsersAuthResult
  | ok (body : AuthRespBody)
  | clientError (json : ErrJson)
  deriving Repr, DecidableEq

/-- `PescClient.async_users_auth` (`pesc_client.py` lines 362–395), the
first step of the verification login: `status`/`body` are the oracle for
the POST to `/v8/users/auth`. -/
def PescClient.async_users_auth (status : Int) (body : AuthRespBody) :
    UsersAuthResult :=
  if status ≠ 424 then
    UsersAuthResult.clientError
      (match body.message with
       | some m =>
         if m ≠ "" then ErrJson.fromBody body
         else ErrJson.synthesized status "Неожиданный статус ответа авторизации"
       | none => ErrJson.synthesized status "Неожиданный статус ответа авторизации")
  else UsersAuthResult.ok body

/-! ### `sensor.py`

`attempt` is the oracle for what the call
`self.api.async_update_value(self.meter, value)` does (`attempt false`:
the first call, `attempt true`: a call after a re-login — never reached in
this snapshot, see `relogin_and_update_retry`).  In this snapshot that call
has only one possible outcome, `sensorPushAttempt` below, because the
sensor passes an `int` where a list is expected.  Each function returns the
service outcome together with the list of update attempts performed, in
order. -/

inductive AttemptOutcome
  | ok (payload : List UpdateValuePayload)
  | authError (code : Int) (message : String)
  | clientError (code : Int) (message : String)
  | typeError
  deriving Repr, DecidableEq

/-- A `ServiceResponse` dict `{"code": ..., "message": ..., "payload"?: ...}`. -/
structure SvcResponse where
  code : Int
  message : String
  payload : Option (List UpdateValuePayload)
  deriving Repr, DecidableEq

/-- What a service call does: return a value (possibly `None`), raise one
of the handled exceptions, or let an unhandled Python exception
(`TypeError`, `AttributeError`) propagate. -/
inductive SvcOutcome
  | response (r : Option SvcResponse)
  | configEntryAuthFailed
  | homeAssistantError (message : String)
  | typeError
  | attributeError
  deriving Repr, DecidableEq

/-- `relogin_and_update_(value, return_response, True)`: the frame begins
with `await self.coordinator.relogin()`, but `PescDataUpdateCoordinator`
(`src/custom_components/pesc/__init__.py`) defines no `relogin` method
(only the private `_reauth`, which `sensor.py` never calls), so the
attribute lookup raises `AttributeError`; the frame's `except` clauses
catch only `ClientError` and its subclasses, so the exception propagates
and no further update attempt is made. -/
def relogin_and_update_retry (_attempt : Bool → AttemptOutcome)
    (_return_response : Bool) : SvcOutcome × List Bool :=
  (SvcOutcome.attributeError, [])

/-- `PescMeterSensor.relogin_and_update_` (`sensor.py` lines 265–288).
When the first attempt raises `ClientAuthError`, the code awaits the
recursive call with `do_relogin=True` and then executes `return None`: a
value the retry *returned* would be discarded, while an exception it raised
(here always the `AttributeError` of the missing `coordinator.relogin`)
propagates.  A `TypeError` from the attempt itself is caught by neither
`except` clause and propagates. -/
def relogin_and_update_ (attempt : Bool → AttemptOutcome)
    (return_response : Bool) (do_relogin : Bool) : SvcOutcome × List Bool :=
  if do_relogin then relogin_and_update_retry attempt return_response
  else
    match attempt false with
    | AttemptOutcome.ok p =>
      (SvcOutcome.response (some ⟨0, "Операция выполнена успешно", some p⟩),
       [false])
    | AttemptOutcome.authError _ _ =>
      let retried := relogin_and_update_retry attempt return_response
      ((match retried.1 with
        | SvcOutcome.response _ => SvcOutcome.response none
        | r => r), false :: retried.2)
    | AttemptOutcome.clientError c m =>
      ((if return_response then SvcOutcome.response (some ⟨c, m, none⟩)
        else SvcOutcome.homeAssistantError ("Ошибка вызова API: " ++ m)),
       [false])
    | AttemptOutcome.typeError => (SvcOutcome.typeError, [false])

/-- The one outcome the call `self.api.async_update_value(self.meter,
value)` (`sensor.py` line 271) can have in this snapshot: the sensor passes
the `int` `value` where `PescApi.async_update_value` expects
`values: list[UpdateValuePayload]`, so `len(values)` (`pesc_api.py` line
217) raises `TypeError` before the client is ever called.  The outcome does
not depend on the auth state, so the oracle is this constant function. -/
def sensorPushAttempt : Bool → AttemptOutcome :=
  fun _ => AttemptOutcome.typeError

/-- `PescMeterSensor.async_update_value` (`sensor.py` lines 244–263);
`self.state` is the sensor's native value `self.meter.value`. -/
def sensor_async_update_value (meter : MeterInd)
    (attempt : Bool → AttemptOutcome) (value : Int) (return_response : Bool) :
    SvcOutcome × List Bool :=
  if meter.auto then
    ((if return_response then
        SvcOutcome.response
          (some ⟨-2, "Показания передаются в автоматическом режиме", none⟩)
      else
        SvcOutcome.homeAssistantError
          "Показания передаются в автоматическом режиме"), [])
  else if value < meter.value then
    ((if return_response then
        SvcOutcome.response (some ⟨-3,
          "Новое значение " ++ toString value ++ " меньше предыдущего " ++
            toString meter.value, none⟩)
      else
        SvcOutcome.homeAssistantError
          ("Новое значение " ++ toString value ++ " меньше предыдущего " ++
            toString meter.value)), [])
  else relogin_and_update_ attempt return_response false

/-! ### `__init__.py` — the update coordinator

`fetch k` is the oracle for the `(k+1)`-st `api.async_fetch_all`,
`hasPassword` is `CONF_PASSWORD in self.config_entry.data`, `login` the
outcome of `api.async_login`; the second component counts the
`async_fetch_all` calls made. -/

inductive FetchOutcome
  | ok
  | authError (code : Int) (message : String)
  | clientError (code : Int) (message : String)
  deriving Repr, DecidableEq

inductive LoginOutcome
  | ok (token : String)
  | authError (code : Int) (message : String)
  | clientError (code : Int) (message : String)
  deriving Repr, DecidableEq

inductive CoordOutcome
  | ok
  | configEntryAuthFailed
  | updateFailed (message : String)
  deriving Repr, DecidableEq

/-- `PescDataUpdateCoordinator._reauth` (`__init__.py` lines 93–106). -/
def coordinator_reauth (login : LoginOutcome) (refetch : FetchOutcome) :
    CoordOutcome × Nat :=
  match login with
  | LoginOutcome.authError _ _ => (CoordOutcome.configEntryAuthFailed, 0)
  | LoginOutcome.clientError _ m =>
    (CoordOutcome.updateFailed ("Error communicating with API: " ++ m), 0)
  | LoginOutcome.ok _ =>
    match refetch with
    | FetchOutcome.ok => (CoordOutcome.ok, 1)
    | FetchOutcome.authError _ _ => (CoordOutcome.configEntryAuthFailed, 1)
    | FetchOutcome.clientError _ m =>
      (CoordOutcome.updateFailed ("Error communicating with API: " ++ m), 1)

/-- `PescDataUpdateCoordinator._async_update_data` (`__init__.py` lines
76–91). -/
def coordinator_async_update_data (fetch : Nat → FetchOutcome)
    (hasPassword : Bool) (login : LoginOutcome) : CoordOutcome × Nat :=
  match fetch 0 with
  | FetchOutcome.ok => (CoordOutcome.ok, 1)
  | FetchOutcome.clientError _ m =>
    (CoordOutcome.updateFailed ("Error communicating with API: " ++ m), 1)
  | FetchOutcome.authError _ _ =>
    if hasPassword then
      let r := coordinator_reauth login (fetch 1)
      (r.1, 1 + r.2)
    else (CoordOutcome.configEntryAuthFailed, 1)

/-! ### `PescApi` construction and login (`FakeClient` backdoor) -/

/-- A `pesc_client` instance as `PescApi` sees it: the real `PescClient`
with its stored token, or the in-memory `FakeClient`, whose `token` is the
constant `"ABC-TEST-DEF"` and whose `async_login` returns that token without
any HTTP request.

Modelled from the spec: the snapshot of `pesc_client.py` under `src/` does
not declare a `token` attribute on `PescClient` (the attribute is read by
`PescApi.__init__` and set by `FakeClient`); following the spec's
token-storage description it is modelled as the client's stored bearer
token, `none` when absent. -/
inductive ClientImpl
  | real (token : Option String)
  | fake
  deriving Repr, DecidableEq

def FakeClient.TOKEN : String := "ABC-TEST-DEF"

def ClientImpl.token : ClientImpl → Option String
  | ClientImpl.real t => t
  | ClientImpl.fake => some FakeClient.TOKEN

/-- `self._client` and `self.client` of a `PescApi` instance. -/
structure PescApiState where
  underlying : ClientImpl
  client : ClientImpl
  deriving Repr, DecidableEq

/-- `PescApi.__init__` (`pesc_api.py` lines 199–203): overwrite `client`
with a `FakeClient` when the passed client's token is the fake token. -/
def PescApi.init (client : ClientImpl) : PescApiState :=
  { underlying := client
    client :=
      if client.token = some FakeClient.TOKEN then ClientImpl.fake
      else client }

/-- Python `username.startswith("test")`. -/
def pyStartswith (s pre : String) : Bool := pre.data.isPrefixOf s.data

/-- `PescApi.async_login` (`pesc_api.py` lines 205–210): select the client
(the fake one on test credentials, else `self._client`) and delegate to its
`async_login`.  `serverToken` is the oracle for the real client's POST; the
result is (new api state, returned token, HTTP requests sent). -/
def PescApi.async_login (st : PescApiState) (username password : String)
    (serverToken : String) : PescApiState × String × Nat :=
  let chosen :=
    if pyStartswith username "test" && (password == "test") then ClientImpl.fake
    else st.underlying
  match chosen with
  | ClientImpl.fake => ({ st with client := ClientImpl.fake }, FakeClient.TOKEN, 0)
  | ClientImpl.real t => ({ st with client := ClientImpl.real t }, serverToken, 1)

/-- The fetches of the `PescApi` data pipeline, one constructor per client
call it makes. -/
inductive ApiFetch
  | profile
  | accounts
  | readingTypes
  | address
  | metersInfo
  | details
  | subservices
  | groups
  deriving Repr, DecidableEq

/-- Which client instance each fetch of the pipeline calls, read off
`pesc_api.py`: `async_fetch_profile`, `async_fetch_data`,
`_load_reading_types`, `_load_address`, `_load_meters`, `_load_tariffs` and
`async_fetch_groups` all call `self.client.…`, but `_load_subservices`
(line 350) calls `self._client.async_subservices(…)` — the originally
passed client, never the `FakeClient` substituted into `self.client`. -/
def PescApi.fetchClient (st : PescApiState) : ApiFetch → ClientImpl
  | ApiFetch.subservices => st.underlying
  | _ => st.client

/-! ### Concrete inputs used by the theorems below -/

def tariffDayNight : Tariff :=
  ⟨"Электроэнергия", some "Двухтарифный",
    [⟨PyVal.num 4, "X", "", ""⟩, ⟨PyVal.num 5, "Y", "", ""⟩]⟩

def meterScale2 : MeterInd := ⟨⟨1, none⟩, "000000", 2, "День", 100⟩

def indAcc9 : MeterInd := ⟨⟨9, none⟩, "00", 1, "T1", 5⟩

def indAcc10 : MeterInd := ⟨⟨10, none⟩, "00", 1, "T1", 7⟩

def storedTwoScales : List MeterInd :=
  [⟨⟨1, none⟩, "M", 1, "День", 100⟩, ⟨⟨1, none⟩, "M", 2, "Ночь", 200⟩]

/-- Both update attempts fail with `ClientAuthError`. -/
def bothAuthFail : Bool → AttemptOutcome :=
  fun _ => AttemptOutcome.authError 5 "expired"

/-- Both fetches fail with `ClientAuthError`. -/
def bothFetchAuthFail : Nat → FetchOutcome :=
  fun _ => FetchOutcome.authError 5 "expired"

/-- A meter indication of an `"auto"`-typed account. -/
def autoMeter : MeterInd := ⟨⟨3, some "auto"⟩, "000000", 2, "День", 100⟩

/-! ## Theorems

### The modelled Python string order is a total preorder -/

theorem charListLt_asymm :
    ∀ x y : List Char, charListLt x y = true → charListLt y x = false := by
  intro x
  induction x with
  | nil => intro y h; cases y <;> simp_all [charListLt]
  | cons a as ih =>
    intro y h
    cases y with
    | nil => simp [charListLt] at h
    | cons b bs =>
      simp only [charListLt] at h ⊢
      by_cases hab : a.val.toNat < b.val.toNat
      · rw [if_neg (by omega), if_pos hab]
      · by_cases hba : b.val.toNat < a.val.toNat
        · rw [if_neg hab, if_pos hba] at h
          cases h
        · rw [if_neg hab, if_neg hba] at h
          rw [if_neg hba, if_neg hab]
          exact ih bs h

theorem charListLt_connect :
    ∀ x y z : List Char, charListLt x z = true →
      charListLt x y = true ∨ charListLt y z = true := by
  intro x
  induction x with
  | nil =>
    intro y z h
    cases z with
    | nil => simp [charListLt] at h
    | cons c cs =>
      cases y with
      | nil => right; exact h
      | cons b bs => left; simp [charListLt]
  | cons a as ih =>
    intro y z h
    cases z with
    | nil => simp [charListLt] at h
    | cons c cs =>
      cases y with
      | nil => right; simp [charListLt]
      | cons b bs =>
        simp only [charListLt] at h ⊢
        by_cases hab : a.val.toNat < b.val.toNat
        · left; rw [if_pos hab]
        · by_cases hbc : b.val.toNat < c.val.toNat
          · right; rw [if_pos hbc]
          · have hac : ¬ a.val.toNat < c.val.toNat := by omega
            rw [if_neg hac] at h
            by_cases hca : c.val.toNat < a.val.toNat
            · rw [if_pos hca] at h; cases h
            · rw [if_neg hca] at h
              rcases ih bs cs h with h1 | h1
              · left
                rw [if_neg hab, if_neg (by omega : ¬ b.val.toNat < a.val.toNat)]
                exact h1
              · right
                rw [if_neg hbc, if_neg (by omega : ¬ c.val.toNat < b.val.toNat)]
                exact h1

theorem pyStrLe_total (s t : String) : pyStrLe s t = true ∨ pyStrLe t s = true := by
  by_cases h : charListLt t.data s.data = true
  · right
    have := charListLt_asymm _ _ h
    simp [pyStrLe, this]
  · left
    simp [pyStrLe, Bool.not_eq_true] at h ⊢
    exact h

theorem pyStrLe_trans {s t u : String} (h1 : pyStrLe s t = true)
    (h2 : pyStrLe t u = true) : pyStrLe s u = true := by
  simp only [pyStrLe, Bool.not_eq_true', Bool.not_eq_true] at h1 h2 ⊢
  by_contra hc
  have hus : charListLt u.data s.data = true := by
    cases h : charListLt u.data s.data
    · exact absurd h hc
    · rfl
  rcases charListLt_connect u.data t.data s.data hus with h3 | h3
  · simp [h3] at h2
  · simp [h3] at h1

/-! ### Claims C3, C4 and C8 — `Tariff.rate` -/

/-- **C3.** For every `Tariff` named `"Электроэнергия"` with kind
`"Двухтарифный"` and exactly two rates, none of whose rate names equals the
meter indication's scale name, `Tariff.rate` returns the first rate when the
indication's `scale_id` is 2 and the second rate when the `scale_id` is 3. -/
theorem C3_electricity_two_rate_scale_mapping
    (t : Tariff) (m : MeterInd) (r0 r1 : TariffRate)
    (hname : t.name = "Электроэнергия")
    (hkind : t.kind = some "Двухтарифный")
    (hrates : t.rates = [r0, r1])
    (hnm : ∀ r ∈ t.rates, r.name ≠ m.name) :
    (m.scale_id = 2 → t.rate m = RateResult.found r0) ∧
    (m.scale_id = 3 → t.rate m = RateResult.found r1) := by
  obtain ⟨tn, tk, tr⟩ := t
  dsimp only at hname hkind hrates hnm
  subst hname hkind hrates
  have hf : List.find? (fun r => r.name == m.name) [r0, r1] = none := by
    apply List.find?_eq_none.mpr
    intro x hx
    simp only [beq_iff_eq]
    exact hnm x hx
  constructor
  · intro h2
    simp [Tariff.rate, waterServiceNames, hf, h2]
  · intro h3
    simp [Tariff.rate, waterServiceNames, hf, h3]

/-- Witness for C3 at a concrete two-rate electricity tariff and a scale-2
meter indication. -/
theorem C3_electricity_two_rate_scale_mapping_witness :
    (∀ r ∈ tariffDayNight.rates, r.name ≠ meterScale2.name) ∧
    Tariff.rate tariffDayNight meterScale2 =
      RateResult.found ⟨PyVal.num 4, "X", "", ""⟩ :=
  ⟨by decide,
   (C3_electricity_two_rate_scale_mapping tariffDayNight meterScale2 _ _
      rfl rfl rfl (by decide)).1 rfl⟩

/-- **C4.** The claim states that `Tariff.rate` is total (always returns a
rate or `None`, never raises).  The code slips on its final line: reaching
`return TariffRate("/".join([rate for rate in self.rates]), "unknown")`
raises `TypeError`, because `str.join` is applied to `TariffRate` objects.
This theorem evaluates the embedded code at a failing input: a two-rate
tariff of a non-special service whose rate names do not match the meter's
scale name. -/
theorem C4_rate_raises_typeerror_on_two_unnamed_rates :
    Tariff.rate
      ⟨"Отопление", none,
        [⟨PyVal.num 1, "A", "", ""⟩, ⟨PyVal.num 2, "B", "", ""⟩]⟩
      ⟨⟨1, none⟩, "000000", 1, "C", 5⟩ = RateResult.typeError := by decide

/-- **C8.** For every `Tariff` whose name is one of the five special-cased
water service names and whose rate list is non-empty, `Tariff.rate` returns
the first rate for every meter indication, regardless of the indication's
scale id or scale name. -/
theorem C8_water_service_names_return_first_rate
    (t : Tariff) (m : MeterInd) (r0 : TariffRate) (rest : List TariffRate)
    (hname : t.name ∈ waterServiceNames) (hr : t.rates = r0 :: rest) :
    t.rate m = RateResult.found r0 := by
  obtain ⟨tn, tk, tr⟩ := t
  dsimp only at hname hr
  subst hr
  simp [Tariff.rate, hname]

/-- Witness for C8 at the concrete service name `"ГВС"`, a two-rate list and
a meter indication whose scale name equals the second rate's name. -/
theorem C8_water_service_names_return_first_rate_witness :
    ("ГВС" ∈ waterServiceNames) ∧
    Tariff.rate
      ⟨"ГВС", none, [⟨PyVal.num 1, "A", "", ""⟩, ⟨PyVal.num 2, "B", "", ""⟩]⟩
      ⟨⟨1, none⟩, "000000", 3, "B", 5⟩ = RateResult.found ⟨PyVal.num 1, "A", "", ""⟩ :=
  ⟨by decide,
   C8_water_service_names_return_first_rate _ _ _ _ (by decide) rfl⟩

/-! ### Claim C2 — de-duplication by "most recent account" -/

theorem fst_of_mem_dictInsert {m : MeterInd} {d : List (String × MeterInd)}
    {p : String × MeterInd} (hp : p ∈ dictInsert m d) :
    p.1 = m.id ∨ p ∈ d := by
  induction d with
  | nil => simp [dictInsert] at hp; simp [hp]
  | cons q rest ih =>
    obtain ⟨k, v⟩ := q
    simp only [dictInsert] at hp
    by_cases hk : k = m.id
    · rw [if_pos hk] at hp
      rcases List.mem_cons.mp hp with h | h
      · left; rw [h, hk]
      · right; exact List.mem_cons_of_mem _ h
    · rw [if_neg hk] at hp
      rcases List.mem_cons.mp hp with h | h
      · right; rw [h]; exact List.mem_cons_self _ _
      · rcases ih h with h1 | h1
        · left; exact h1
        · right; exact List.mem_cons_of_mem _ h1

theorem dictInsert_pairwise_keys {m : MeterInd} {d : List (String × MeterInd)}
    (hd : d.Pairwise (fun p q => p.1 ≠ q.1)) :
    (dictInsert m d).Pairwise (fun p q => p.1 ≠ q.1) := by
  induction d with
  | nil => simp [dictInsert]
  | cons q rest ih =>
    obtain ⟨k, v⟩ := q
    rw [List.pairwise_cons] at hd
    obtain ⟨hk, hrest⟩ := hd
    simp only [dictInsert]
    by_cases hkm : k = m.id
    · rw [if_pos hkm]
      exact List.pairwise_cons.mpr ⟨hk, hrest⟩
    · rw [if_neg hkm]
      refine List.pairwise_cons.mpr ⟨?_, ih hrest⟩
      intro p hp
      rcases fst_of_mem_dictInsert hp with h | h
      · rw [h]; exact hkm
      · exact hk p h

theorem dictInsert_keys_eq_id {m : MeterInd} {d : List (String × MeterInd)}
    (hd : ∀ p ∈ d, p.1 = p.2.id) :
    ∀ p ∈ dictInsert m d, p.1 = p.2.id := by
  induction d with
  | nil =>
    intro p hp
    simp [dictInsert] at hp
    simp [hp]
  | cons q rest ih =>
    obtain ⟨k, v⟩ := q
    intro p hp
    simp only [dictInsert] at hp
    by_cases hk : k = m.id
    · rw [if_pos hk] at hp
      rcases List.mem_cons.mp hp with h | h
      · rw [h]; exact hk
      · exact hd p (List.mem_cons_of_mem _ h)
    · rw [if_neg hk] at hp
      rcases List.mem_cons.mp hp with h | h
      · rw [h]; exact hd (k, v) (List.mem_cons_self _ _)
      · exact ih (fun q hq => hd q (List.mem_cons_of_mem _ hq)) p h

theorem foldl_dictInsert_invariants (ms : List MeterInd) :
    ∀ d : List (String × MeterInd),
      d.Pairwise (fun p q => p.1 ≠ q.1) → (∀ p ∈ d, p.1 = p.2.id) →
      (ms.foldl (fun d m => dictInsert m d) d).Pairwise (fun p q => p.1 ≠ q.1) ∧
      (∀ p ∈ ms.foldl (fun d m => dictInsert m d) d, p.1 = p.2.id) := by
  induction ms with
  | nil => intro d h1 h2; exact ⟨h1, h2⟩
  | cons m rest ih =>
    intro d h1 h2
    exact ih (dictInsert m d) (dictInsert_pairwise_keys h1)
      (dictInsert_keys_eq_id h2)

/-- The de-duplicated list has pairwise distinct indication ids. -/
theorem meters_pairwise_id (stored : List MeterInd) :
    (PescApi.meters stored).Pairwise (fun a b => a.id ≠ b.id) := by
  unfold PescApi.meters
  obtain ⟨h1, h2⟩ := foldl_dictInsert_invariants (List.insertionSort keyLe stored)
    [] (by simp) (by simp)
  rw [List.pairwise_map]
  refine h1.imp_of_mem ?_
  intro p q hp hq hne
  rw [← h2 p hp, ← h2 q hq]
  exact hne

/-- **C2.** The claim (and the method's own docstring, "A values with an
older account will be skipped") says the entry kept for a duplicated
indication id is the one of the most recent (highest-id) account.  The code
sorts by the *string* `f"{x.account.id}_{x.id}"`, and `"10_00_1" < "9_00_1"`
lexicographically, so for accounts 9 and 10 the dict's final write — the
entry kept — is the *older* account 9's.  This theorem evaluates the
embedded code at that failing input: the result is the account-9 entry,
although the account-10 entry has the same indication id, a strictly higher
account id, and a different value. -/
theorem C2_meters_keeps_older_account_9_vs_10 :
    PescApi.meters [indAcc9, indAcc10] = [indAcc9] ∧
    indAcc9.id = indAcc10.id ∧
    indAcc9.account.id < indAcc10.account.id ∧
    indAcc9 ≠ indAcc10 := by decide

/-! ### Claim C10 — payload padding -/

theorem foldl_padStep_eq :
    ∀ (ms : List MeterInd),
      ms.Pairwise (fun a b => a.scale_id ≠ b.scale_id) →
      ∀ vals, ms.foldl padStep vals = vals ++ ms.filterMap (padEntry vals) := by
  intro ms
  induction ms with
  | nil => intro _ vals; simp
  | cons m rest ih =>
    intro hdist vals
    rw [List.pairwise_cons] at hdist
    obtain ⟨hm, hrest⟩ := hdist
    rw [List.foldl_cons]
    by_cases hc : vals.any (fun val => m.scale_id == val.scaleId) = true
    · rw [show padStep vals m = vals from if_pos hc, ih hrest vals,
        List.filterMap_cons, show padEntry vals m = none from if_pos hc]
    · rw [show padStep vals m = vals ++ [⟨m.scale_id, m.value⟩] from if_neg hc,
        ih hrest]
      have hcong : ∀ x ∈ rest,
          padEntry (vals ++ [⟨m.scale_id, m.value⟩]) x = padEntry vals x := by
        intro x hx
        unfold padEntry
        have hone :
            ([(⟨m.scale_id, m.value⟩ : UpdateValuePayload)].any
              (fun val => x.scale_id == val.scaleId)) = false := by
          have hne : x.scale_id ≠ m.scale_id := fun h => hm x hx h.symm
          simp [hne]
        rw [List.any_append, hone, Bool.or_false]
      rw [List.filterMap_congr hcong, List.filterMap_cons,
        show padEntry vals m = some ⟨m.scale_id, m.value⟩ from if_neg hc,
        List.append_assoc, List.singleton_append]

theorem meters_filter_pairwise_scale (stored : List MeterInd)
    (meter : MeterInd) :
    ((PescApi.meters stored).filter
        (fun mtr => mtr.meterId == meter.meterId)).Pairwise
      (fun a b => a.scale_id ≠ b.scale_id) := by
  have hsub : (List.filter (fun mtr => mtr.meterId == meter.meterId)
      (PescApi.meters stored)).Sublist (PescApi.meters stored) :=
    List.filter_sublist _
  have h := (meters_pairwise_id stored).sublist hsub
  refine h.imp_of_mem ?_
  intro a b ha hb hne hscale
  have haf := (List.mem_filter.mp ha).2
  have hbf := (List.mem_filter.mp hb).2
  rw [beq_iff_eq] at haf hbf
  apply hne
  unfold MeterInd.id
  rw [haf, hbf, hscale]

/-- **C10.** If the input payload list's length differs from the number of
loaded (de-duplicated) indications of the same physical meter, then the list
handed to the provider and returned is exactly the input list followed by
one appended entry `⟨scale_id, current value⟩` for every such indication
whose scale id does not occur in the input list, in indication order;
entries already present are never modified. -/
theorem C10_update_value_pads_missing_scales
    (stored : List MeterInd) (meter : MeterInd)
    (values : List UpdateValuePayload)
    (hlen : values.length ≠
      ((PescApi.meters stored).filter
        (fun mtr => mtr.meterId == meter.meterId)).length) :
    PescApi.async_update_value stored meter values =
      values ++
        ((PescApi.meters stored).filter
          (fun mtr => mtr.meterId == meter.meterId)).filterMap
          (padEntry values) := by
  unfold PescApi.async_update_value
  rw [if_pos hlen]
  exact foldl_padStep_eq _ (meters_filter_pairwise_scale stored meter) values

/-- Witness for C10: one payload for a meter with two loaded indications;
the scale-2 indication's current value is appended. -/
theorem C10_update_value_pads_missing_scales_witness :
    ([⟨1, 150⟩] : List UpdateValuePayload).length ≠
      ((PescApi.meters storedTwoScales).filter
        (fun mtr => mtr.meterId == (⟨⟨1, none⟩, "M", 1, "День", 100⟩ : MeterInd).meterId)).length ∧
    PescApi.async_update_value storedTwoScales ⟨⟨1, none⟩, "M", 1, "День", 100⟩
      [⟨1, 150⟩] = [⟨1, 150⟩, ⟨2, 200⟩] :=
  ⟨by decide, by
    rw [C10_update_value_pads_missing_scales storedTwoScales
      ⟨⟨1, none⟩, "M", 1, "День", 100⟩ [⟨1, 150⟩] (by decide)]
    decide⟩

/-! ### Claims C6 and C7 — the client's auth endpoints -/

theorem hasAuthKey_iff (k : String) (auth : UserAuth) :
    hasAuthKey k auth = true ↔ ∃ v, (k, v) ∈ auth := by
  unfold hasAuthKey
  rw [List.any_eq_true]
  constructor
  · rintro ⟨⟨k', v⟩, hmem, hk⟩
    rw [beq_iff_eq] at hk
    subst hk
    exact ⟨v, hmem⟩
  · rintro ⟨v, hmem⟩
    exact ⟨(k, v), hmem, by simp⟩

/-- **C6.** `can_reauth` is exactly presence of the `"verified"` key, and
`async_users_reauth` raises `ClientAuthError` with no HTTP request sent
exactly when the auth mapping lacks that key (with the key present it sends
the request, and any failure there is a plain `ClientError`). -/
theorem C6_reauth_requires_verified_token (auth : UserAuth) (status : Int)
    (body : UserAuth) :
    (PescClient.can_reauth auth = true ↔ ∃ v, ("verified", v) ∈ auth) ∧
    (((∃ m, (PescClient.async_users_reauth auth status body).1 =
          ReauthResult.clientAuthError m) ∧
        (PescClient.async_users_reauth auth status body).2 = 0) ↔
      ¬ ∃ v, ("verified", v) ∈ auth) := by
  refine ⟨hasAuthKey_iff "verified" auth, ?_⟩
  by_cases hc : PescClient.can_reauth auth = true
  · have hex : ∃ v, ("verified", v) ∈ auth :=
      (hasAuthKey_iff "verified" auth).mp hc
    unfold PescClient.async_users_reauth
    rw [hc, if_neg (by simp : ¬ ¬ (true : Bool) = true)]
    constructor
    · rintro ⟨-, h0⟩
      by_cases hs : status ≠ 200
      · rw [if_pos hs] at h0
        simp at h0
      · rw [if_neg hs] at h0
        simp at h0
    · intro h
      exact absurd hex h
  · have hnex : ¬ ∃ v, ("verified", v) ∈ auth := fun hex =>
      hc ((hasAuthKey_iff "verified" auth).mpr hex)
    unfold PescClient.async_users_reauth
    rw [if_pos hc]
    exact ⟨fun _ => hnex, fun _ => ⟨⟨"Отсутствует токен verified", rfl⟩, rfl⟩⟩

/-- **C7.** `async_users_auth` returns the server's parsed JSON if and only
if the response status is 424; for every other status it raises
`ClientError`. -/
theorem C7_users_auth_returns_json_iff_424 (status : Int)
    (body : AuthRespBody) :
    ((∃ b, PescClient.async_users_auth status body = UsersAuthResult.ok b) ↔
      status = 424) ∧
    (status = 424 →
      PescClient.async_users_auth status body = UsersAuthResult.ok body) ∧
    (status ≠ 424 →
      ∃ e, PescClient.async_users_auth status body =
        UsersAuthResult.clientError e) := by
  unfold PescClient.async_users_auth
  by_cases hs : status = 424
  · rw [if_neg (fun h => h hs)]
    refine ⟨⟨fun _ => hs, fun _ => ⟨body, rfl⟩⟩, fun _ => rfl, fun h => absurd hs h⟩
  · rw [if_pos hs]
    refine ⟨⟨?_, fun h => absurd h hs⟩, fun h => absurd h hs, fun _ => ⟨_, rfl⟩⟩
    rintro ⟨b, hb⟩
    cases hb

/-- Witness for C7's conditional parts at status 424 and status 500 with a
concrete body. -/
theorem C7_users_auth_returns_json_iff_424_witness :
    PescClient.async_users_auth 424 ⟨none, "tx", ["PHONE"]⟩ =
      UsersAuthResult.ok ⟨none, "tx", ["PHONE"]⟩ ∧
    (∃ e, PescClient.async_users_auth 500 ⟨none, "tx", ["PHONE"]⟩ =
      UsersAuthResult.clientError e) :=
  ⟨(C7_users_auth_returns_json_iff_424 424 ⟨none, "tx", ["PHONE"]⟩).2.1 rfl,
   (C7_users_auth_returns_json_iff_424 500 ⟨none, "tx", ["PHONE"]⟩).2.2
     (by decide)⟩

/-! ### Claims C1 and C5 — retry-once and manual-reading rejection -/

/-- **C1.** The claim says both the data refresh and the meter-value push
retry exactly once on `ClientAuthError` and then surface the error.  The
refresh half holds and is evaluated in the last conjunct: with a stored
password, on a second auth failure the coordinator has re-logged-in,
fetched exactly twice and raises `ConfigEntryAuthFailed`.  The push half is
broken in this snapshot and the claim's scenario is unreachable there:
`sensor.py` line 271 passes the `int` `value` to
`PescApi.async_update_value`, whose `len(values)` (`pesc_api.py` line 217)
raises `TypeError` before any client call, so no `ClientAuthError` can
arise and nothing is ever retried (first two conjuncts: a single attempt,
then the `TypeError` propagates in both response modes); and the retry
frame itself would raise `AttributeError` at `self.coordinator.relogin()`,
a method `PescDataUpdateCoordinator` does not define (third conjunct: no
attempt is made there). -/
theorem C1_push_path_broken_refresh_retries_once :
    relogin_and_update_ sensorPushAttempt true false =
      (SvcOutcome.typeError, [false]) ∧
    relogin_and_update_ sensorPushAttempt false false =
      (SvcOutcome.typeError, [false]) ∧
    relogin_and_update_retry sensorPushAttempt true =
      (SvcOutcome.attributeError, []) ∧
    coordinator_async_update_data bothFetchAuthFail true
      (LoginOutcome.ok "tok") = (CoordOutcome.configEntryAuthFailed, 2) := by
  decide

/-- **C5.** For every meter indication whose account type is `"auto"` and
every requested value strictly below the current reading,
`async_update_value` performs no update attempt (the provider endpoint is
not called) and raises `HomeAssistantError` when no response is requested,
or returns an error response with a negative code. -/
theorem C5_rejects_update_for_auto_account
    (meter : MeterInd) (attempt : Bool → AttemptOutcome) (value : Int)
    (rr : Bool)
    (hauto : meter.account.type = some "auto")
    (hlt : value < meter.value) :
    (sensor_async_update_value meter attempt value rr).2 = [] ∧
    (rr = false → ∃ m, (sensor_async_update_value meter attempt value rr).1 =
      SvcOutcome.homeAssistantError m) ∧
    (rr = true → ∃ r, (sensor_async_update_value meter attempt value rr).1 =
      SvcOutcome.response (some r) ∧ r.code < 0) := by
  have hA : meter.auto = true := by
    unfold MeterInd.auto
    rw [hauto]
    rfl
  refine ⟨?_, ?_, ?_⟩
  · simp [sensor_async_update_value, hA]
  · intro hrr
    subst hrr
    exact ⟨"Показания передаются в автоматическом режиме",
      by simp [sensor_async_update_value, hA]⟩
  · intro hrr
    subst hrr
    refine ⟨⟨-2, "Показания передаются в автоматическом режиме", none⟩,
      by simp [sensor_async_update_value, hA], by decide⟩

/-- Witness for C5: value 50 against current reading 100 on an `"auto"`
account, in both response modes. -/
theorem C5_rejects_update_for_auto_account_witness :
    autoMeter.account.type = some "auto" ∧ (50 : Int) < autoMeter.value ∧
    (∃ m, (sensor_async_update_value autoMeter bothAuthFail 50 false).1 =
      SvcOutcome.homeAssistantError m) ∧
    (sensor_async_update_value autoMeter bothAuthFail 50 true).2 = [] :=
  ⟨rfl, by decide,
   (C5_rejects_update_for_auto_account autoMeter bothAuthFail 50 false rfl
      (by decide)).2.1 rfl,
   (C5_rejects_update_for_auto_account autoMeter bothAuthFail 50 true rfl
      (by decide)).1⟩

/-! ### Claim C9 — test-credential backdoor -/

/-- **C9 (amended).** For every username starting with `"test"` and the
exact password `"test"`, `async_login` switches the api to the `FakeClient`
and returns the constant token `"ABC-TEST-DEF"` with no HTTP request sent;
and constructing `PescApi` around any client whose token equals
`"ABC-TEST-DEF"` selects the `FakeClient` as `self.client` — the client
every subsequent fetch of the pipeline uses, *except* the subservice fetch,
which always calls the originally passed client `self._client`. -/
theorem C9_test_credentials_use_fake_client
    (st : PescApiState) (username password serverToken : String)
    (htest : pyStartswith username "test" = true)
    (hpwd : password = "test") :
    PescApi.async_login st username password serverToken =
      ({ st with client := ClientImpl.fake }, FakeClient.TOKEN, 0) ∧
    ∀ c : ClientImpl, c.token = some FakeClient.TOKEN →
      (PescApi.init c).client = ClientImpl.fake ∧
      (∀ f : ApiFetch, f ≠ ApiFetch.subservices →
        PescApi.fetchClient (PescApi.init c) f = ClientImpl.fake) ∧
      PescApi.fetchClient (PescApi.init c) ApiFetch.subservices = c := by
  constructor
  · subst hpwd
    simp [PescApi.async_login, htest]
  · intro c hc
    refine ⟨by simp [PescApi.init, hc], ?_, by simp [PescApi.fetchClient, PescApi.init]⟩
    intro f hf
    cases f
    case subservices => exact absurd rfl hf
    all_goals simp [PescApi.fetchClient, PescApi.init, hc]

/-- Counterexample to C9 as stated ("makes *all* subsequent fetches use the
FakeClient's canned data"): constructing `PescApi` around a real client
whose token equals `"ABC-TEST-DEF"` does select the `FakeClient` as
`self.client`, yet the subservice fetch — `_load_subservices`, run on every
data refresh — still calls the original real client `self._client`, not the
`FakeClient`. -/
theorem C9_subservices_fetch_bypasses_fake_client :
    (PescApi.init (ClientImpl.real (some "ABC-TEST-DEF"))).client =
      ClientImpl.fake ∧
    PescApi.fetchClient (PescApi.init (ClientImpl.real (some "ABC-TEST-DEF")))
      ApiFetch.subservices = ClientImpl.real (some "ABC-TEST-DEF") ∧
    PescApi.fetchClient (PescApi.init (ClientImpl.real (some "ABC-TEST-DEF")))
      ApiFetch.subservices ≠ ClientImpl.fake := by
  decide

/-- Witness for C9 (amended) at username `"test123"`, password `"test"`,
and a real client storing the fake token. -/
theorem C9_test_credentials_use_fake_client_witness :
    pyStartswith "test123" "test" = true ∧
    PescApi.async_login ⟨ClientImpl.real none, ClientImpl.real none⟩ "test123"
      "test" "srv" =
      (⟨ClientImpl.real none, ClientImpl.fake⟩, "ABC-TEST-DEF", 0) ∧
    (PescApi.init (ClientImpl.real (some "ABC-TEST-DEF"))).client =
      ClientImpl.fake ∧
    PescApi.fetchClient (PescApi.init (ClientImpl.real (some "ABC-TEST-DEF")))
      ApiFetch.accounts = ClientImpl.fake :=
  have h := C9_test_credentials_use_fake_client
    ⟨ClientImpl.real none, ClientImpl.real none⟩ "test123" "test" "srv"
    (by decide) rfl
  ⟨by decide, h.1,
   (h.2 (ClientImpl.real (some "ABC-TEST-DEF")) rfl).1,
   (h.2 (ClientImpl.real (some "ABC-TEST-DEF")) rfl).2.1 ApiFetch.accounts
     (by decide)⟩

end Pesc
